import Mathlib

/-!
# JurisGuard PII Redactor — verification development

Shallow embedding of `app/scripts/pii_redactor.py` and of the spec-level
Detector / Policy Store components, together with theorems settling the
specification claims.

The Python module is a thin orchestration layer over an external
entity-recognition engine (Presidio).  We embed:

* the module-level configuration (`LEGAL_PII_ENTITIES`, `REDACTION_OPERATORS`);
* `_get_engines` as an explicit state-transition function over the pair of
  module-global `Optional` engine handles, parameterised by the outcome of the
  (external) engine constructors;
* `secure_text` and `analyze_only` as functions over an abstract engine whose
  `analyze` / `anonymize` calls may fail (`Except`), returning the function
  result together with the list of log records the Python code would emit;
* the Detector's merge / overlap-resolution step and the Policy Store lookup,
  which the Python source delegates to the external library, modelled from
  the specification's words (their doc comments say so explicitly).
-/

namespace JurisGuard

/-- Presidio `RecognizerResult` as consumed by this module: an entity label and
a character span `[start, end)` with a confidence score.  The matched substring
is not part of the record.  (`end` is a Lean keyword, hence `end_`.) -/
structure RecognizerResult where
  entity_type : String
  start : Nat
  end_ : Nat
  score : ℚ
deriving Repr, DecidableEq

/-- Presidio `OperatorConfig(operator_name, params)`: in this module every
operator is a `"replace"` with a single `new_value` parameter. -/
structure OperatorConfig where
  operator_name : String
  new_value : String
deriving Repr, DecidableEq

/-- `LEGAL_PII_ENTITIES` from `pii_redactor.py` (lines 53–65): the extended
entity allowlist for legal documents. -/
def LEGAL_PII_ENTITIES : List String :=
  [ "PERSON",
    "PHONE_NUMBER",
    "EMAIL_ADDRESS",
    "US_SSN",
    "IBAN_CODE",
    "CREDIT_CARD",
    "US_DRIVER_LICENSE",
    "US_PASSPORT",
    "IP_ADDRESS",
    "DATE_TIME",
    "LOCATION" ]

/-- `REDACTION_OPERATORS` from `pii_redactor.py` (lines 68–80), as an
association list mirroring the Python dict in insertion order. -/
def REDACTION_OPERATORS : List (String × OperatorConfig) :=
  [ ("DEFAULT",           ⟨"replace", "<REDACTED>"⟩),
    ("PERSON",            ⟨"replace", "<PARTY>"⟩),
    ("PHONE_NUMBER",      ⟨"replace", "<PHONE>"⟩),
    ("EMAIL_ADDRESS",     ⟨"replace", "<EMAIL>"⟩),
    ("US_SSN",            ⟨"replace", "<SSN_REDACTED>"⟩),
    ("IBAN_CODE",         ⟨"replace", "<BANK_ACCOUNT>"⟩),
    ("CREDIT_CARD",       ⟨"replace", "<CREDIT_CARD>"⟩),
    ("US_DRIVER_LICENSE", ⟨"replace", "<LICENSE>"⟩),
    ("US_PASSPORT",       ⟨"replace", "<PASSPORT>"⟩),
    ("IP_ADDRESS",        ⟨"replace", "<IP_ADDRESS>"⟩),
    ("LOCATION",          ⟨"replace", "<ADDRESS>"⟩) ]

/-- A record the `jurisguard_pii` logger would emit. -/
inductive Log where
  | info (msg : String)
  | error (msg : String)
  | warning (msg : String)
deriving Repr, DecidableEq

/-- Abstract handle to the constructed Presidio engines.  `analyze` models
`AnalyzerEngine.analyze(text, entities, language='en')` and `anonymize`
models `AnonymizerEngine.anonymize(text, analyzer_results, operators)`;
either call may raise, modelled by `Except String`. -/
structure Engines where
  analyze : String → List String → Except String (List RecognizerResult)
  anonymize : String → List RecognizerResult → Except String String

/-- The guard `if not text or not text.strip():` of lines 100 and 149.
`not text` holds iff `text` is empty and `not text.strip()` holds iff every
character of `text` is whitespace, so the disjunction is equivalent to all
characters being whitespace (vacuously true for the empty string). -/
def blankInput (text : String) : Bool :=
  text.data.all Char.isWhitespace

/-- `entities or LEGAL_PII_ENTITIES` (lines 104 and 153): Python `or` takes
the default both when `entities` is `None` and when it is an empty (falsy)
list. -/
def targetEntities (entities : Option (List String)) : List String :=
  match entities with
  | none => LEGAL_PII_ENTITIES
  | some l => if l.isEmpty then LEGAL_PII_ENTITIES else l

/-- `secure_text(text, entities)` (lines 83–140).  The first component is the
Python return value (`Except` carries the `RuntimeError` propagating out of
`_get_engines`, passed in as the `engines` argument); the second component
lists the log records emitted inside the function body.  Note the
`except Exception` block of lines 134–140: any error raised by `analyze` or
`anonymize` is caught and the original `text` is returned. -/
def secure_text (engines : Except String Engines) (text : String)
    (entities : Option (List String)) : Except String String × List Log :=
  if blankInput text then (Except.ok "", [])
  else
    match engines with
    | Except.error e => (Except.error e, [])
    | Except.ok eng =>
      let target := targetEntities entities
      match eng.analyze text target with
      | Except.error e =>
          (Except.ok text,
           [Log.error ("Error during PII redaction: " ++ e),
            Log.warning "SECURITY WARNING: Returning unredacted text due to error!"])
      | Except.ok results =>
        if results.isEmpty then
          (Except.ok text, [Log.info "No PII entities detected in text."])
        else
          match eng.anonymize text results with
          | Except.error e =>
              (Except.ok text,
               [Log.error ("Error during PII redaction: " ++ e),
                Log.warning "SECURITY WARNING: Returning unredacted text due to error!"])
          | Except.ok anonymized =>
              (Except.ok anonymized,
               [Log.info ("Redacted " ++ toString results.length ++ " PII entities.")])

/-- The sanitized per-entity record built by `analyze_only` (lines 163–171):
exactly the keys `entity_type`, `start`, `end`, `score` — positions only,
never the matched value. -/
structure FindingRecord where
  entity_type : String
  start : Nat
  end_ : Nat
  score : ℚ
deriving Repr, DecidableEq

/-- The projection of lines 164–169 from a `RecognizerResult` to the
sanitized dict. -/
def findingRecordOf (r : RecognizerResult) : FindingRecord :=
  ⟨r.entity_type, r.start, r.end_, r.score⟩

/-- `analyze_only(text, entities)` (lines 143–174).  As for `secure_text`,
the `engines` argument carries a possible `_get_engines` failure, which
propagates (line 152 is outside the `try`).  The `except` block of lines
172–174 catches any error raised by `analyze` and returns the empty list. -/
def analyze_only (engines : Except String Engines) (text : String)
    (entities : Option (List String)) : Except String (List FindingRecord) × List Log :=
  if blankInput text then (Except.ok [], [])
  else
    match engines with
    | Except.error e => (Except.error e, [])
    | Except.ok eng =>
      let target := targetEntities entities
      match eng.analyze text target with
      | Except.error e =>
          (Except.ok [], [Log.error ("Error during PII analysis: " ++ e)])
      | Except.ok results =>
          (Except.ok (results.map findingRecordOf), [])

/-! ## Engine lifecycle (`_get_engines`, lines 28–49)

The module globals `_analyzer` / `_anonymizer` become an explicit state.
Engine handles are abstracted to `Nat` identifiers; the outcome of the two
constructor calls `AnalyzerEngine()` / `AnonymizerEngine()` in one invocation
is an environment parameter.  -/

/-- The pair of module-level globals `_analyzer` and `_anonymizer`, both
initialized to `None` (lines 29–30). -/
structure EngineState where
  analyzer : Option Nat
  anonymizer : Option Nat
deriving Repr, DecidableEq

/-- The initial module state: both globals `None`. -/
def initialEngineState : EngineState := ⟨none, none⟩

/-- Outcome of the constructor calls inside the `try` of lines 38–41 for one
invocation: `AnalyzerEngine()` raises; or it returns `a` and
`AnonymizerEngine()` raises; or both succeed. -/
inductive InitOutcome where
  | analyzerFails
  | anonymizerFails (a : Nat)
  | success (a b : Nat)
deriving Repr, DecidableEq

/-- One call to `_get_engines()` (lines 33–49) under constructor outcome
`oc`, returning the updated global state and the Python result
(`Except.error` models the `RuntimeError` raised on line 44).  When
`AnalyzerEngine()` succeeds but `AnonymizerEngine()` raises, the assignment
`_analyzer = AnalyzerEngine()` has already happened, so the global keeps the
fresh analyzer while `_anonymizer` stays `None`. -/
def get_engines (st : EngineState) (oc : InitOutcome) :
    EngineState × Except String (Nat × Nat) :=
  match st.analyzer, st.anonymizer with
  | some a, some b => (st, Except.ok (a, b))
  | _, _ =>
    match oc with
    | InitOutcome.analyzerFails =>
        (st, Except.error "PII engine initialization failed.")
    | InitOutcome.anonymizerFails a =>
        ({ st with analyzer := some a }, Except.error "PII engine initialization failed.")
    | InitOutcome.success a b =>
        (⟨some a, some b⟩, Except.ok (a, b))

/-- Iterate `_get_engines` over a sequence of per-call constructor outcomes,
collecting each call's result. -/
def runCalls (st : EngineState) : List InitOutcome → EngineState × List (Except String (Nat × Nat))
  | [] => (st, [])
  | oc :: rest =>
      let (st', r) := get_engines st oc
      let (stFin, rs) := runCalls st' rest
      (stFin, r :: rs)

/-! ## Detector merge / overlap resolution

The Python source delegates detection to `AnalyzerEngine.analyze`; the
Detector's merge and overlap-resolution logic is code of this system that is
not in the repository, so it is modelled from the specification (§4.1). -/

/-- Length of a candidate's span. -/
def spanLength (f : RecognizerResult) : Nat := f.end_ - f.start

/-- Two spans `[a.start, a.end_)` and `[b.start, b.end_)` intersect. -/
def overlaps (a b : RecognizerResult) : Bool :=
  decide (a.start < b.end_) && decide (b.start < a.end_)

/-- Modelled from the spec: the pairwise preference of §4.1's overlap
resolution — "keep the one with higher score; on a score tie, keep the
longer span; on a further tie, keep the one with the earlier start offset"
— as a ranking predicate (`a` is at least as preferred as `b`). -/
def priorityLe (a b : RecognizerResult) : Bool :=
  decide (b.score < a.score) ||
    (decide (a.score = b.score) &&
      (decide (spanLength b < spanLength a) ||
        (decide (spanLength a = spanLength b) && decide (a.start ≤ b.start))))

/-- Modelled from the spec: greedy conflict resolution — walk the candidates
in preference order, keeping each one that overlaps none of those already
kept. -/
def resolveOverlaps : List RecognizerResult → List RecognizerResult → List RecognizerResult
  | [], kept => kept
  | c :: rest, kept =>
      if kept.any (fun k => overlaps c k) then resolveOverlaps rest kept
      else resolveOverlaps rest (kept ++ [c])

/-- Ordering of findings by ascending start offset. -/
def startLe (a b : RecognizerResult) : Bool := decide (a.start ≤ b.start)

/-- Modelled from the spec: the Detector of §4.1, which the source replaces
by a call to the external `AnalyzerEngine.analyze`.  It restricts the merged
candidates to the entity allowlist, ranks them by `priorityLe`, resolves
overlaps greedily, and returns the survivors sorted by ascending `start`. -/
def detect (allowed : List String) (candidates : List RecognizerResult) :
    List RecognizerResult :=
  (resolveOverlaps
      ((candidates.filter (fun c => allowed.contains c.entity_type)).mergeSort priorityLe)
      []).mergeSort startLe

lemma overlaps_comm (a b : RecognizerResult) : overlaps a b = overlaps b a := by
  simp [overlaps, Bool.and_comm]

lemma mem_resolveOverlaps {x : RecognizerResult} :
    ∀ {cs kept : List RecognizerResult}, x ∈ resolveOverlaps cs kept → x ∈ cs ∨ x ∈ kept := by
  intro cs
  induction cs with
  | nil => exact fun h => Or.inr h
  | cons c rest ih =>
    intro kept h
    simp only [resolveOverlaps] at h
    split at h
    · rcases ih h with h1 | h2
      · exact Or.inl (List.mem_cons_of_mem _ h1)
      · exact Or.inr h2
    · rcases ih h with h1 | h2
      · exact Or.inl (List.mem_cons_of_mem _ h1)
      · rcases List.mem_append.1 h2 with h3 | h4
        · exact Or.inr h3
        · simp only [List.mem_singleton] at h4
          exact Or.inl (h4 ▸ List.mem_cons_self _ _)

lemma pairwise_resolveOverlaps :
    ∀ (cs kept : List RecognizerResult),
      kept.Pairwise (fun a b => overlaps a b = false) →
      (resolveOverlaps cs kept).Pairwise (fun a b => overlaps a b = false) := by
  intro cs
  induction cs with
  | nil => exact fun kept h => h
  | cons c rest ih =>
    intro kept h
    simp only [resolveOverlaps]
    split
    · exact ih kept h
    · rename_i hany
      apply ih
      rw [List.pairwise_append]
      refine ⟨h, List.pairwise_singleton _ _, ?_⟩
      intro a ha b hb
      simp only [List.mem_singleton] at hb
      have hanyf : (kept.any fun k => overlaps c k) = false := by
        simpa using hany
      have hca : overlaps c a = false := by
        have := List.any_eq_false.1 hanyf a ha
        simpa using this
      rw [hb, overlaps_comm]
      exact hca

/-! ## Policy Store lookup

`secure_text` hands `REDACTION_OPERATORS` to the external
`AnonymizerEngine.anonymize`; the rule-resolution step itself is code of this
system that is not in the repository, so it is modelled from the
specification (§4.2). -/

/-- Modelled from the spec: replacement-rule resolution — "resolve a
ReplacementRule (exact entity-type match, else DEFAULT)" — over an operator
table such as `REDACTION_OPERATORS`. -/
def lookupRule (ops : List (String × OperatorConfig)) (ety : String) :
    Option OperatorConfig :=
  match ops.find? (fun p => p.1 == ety) with
  | some p => some p.2
  | none => Option.map Prod.snd (ops.find? (fun p => p.1 == "DEFAULT"))

/-! ## Concrete engine instances used to evaluate the code at specific inputs -/

/-- An engine whose `analyze` call raises (detector failure after successful
initialization). -/
def failingAnalyzeEngines : Engines :=
  ⟨fun _ _ => Except.error "analyzer crashed", fun _ _ => Except.error "anonymizer crashed"⟩

/-- An engine whose `analyze` succeeds with one PERSON finding but whose
`anonymize` call raises (redaction failure after successful detection). -/
def failingAnonymizeEngines : Engines :=
  ⟨fun _ _ => Except.ok [⟨"PERSON", 0, 4, 1⟩], fun _ _ => Except.error "anonymizer crashed"⟩

/-- An engine that finds no PII in any text. -/
def noFindingsEngines : Engines :=
  ⟨fun _ _ => Except.ok [], fun _ _ => Except.ok ""⟩

/-- A sample detection result used to exercise the projection. -/
def sampleResult : RecognizerResult := ⟨"PERSON", 0, 4, 1⟩

/-- An engine that reports exactly `sampleResult` for every text. -/
def projEngines : Engines :=
  ⟨fun _ _ => Except.ok [sampleResult], fun _ _ => Except.ok ""⟩

/-! ## Claim theorems -/

/-- C1 (code bug): after successful engine initialization, when detection
raises — and likewise when redaction raises — `secure_text` does not surface a
`RedactionFailed` error: the `except` block of lines 134–140 catches the
exception and returns the unredacted original text as the successful result,
contrary to the spec's fail-closed mandate. -/
theorem secure_text_returns_unredacted_on_error :
    (secure_text (Except.ok failingAnalyzeEngines) "John Smith john@email.com" none).1
        = Except.ok "John Smith john@email.com" ∧
    (secure_text (Except.ok failingAnonymizeEngines) "John Smith john@email.com" none).1
        = Except.ok "John Smith john@email.com" :=
  ⟨rfl, rfl⟩

/-- C2 (code bug): an initialization failure raised by `_get_engines` does
propagate out of `analyze_only` (first conjunct), but a detector failure
during analysis is swallowed by the `except` block of lines 172–174:
`analyze_only` silently degrades to reporting no PII found, returning an
empty findings list instead of failing. -/
theorem analyze_only_swallows_detector_failure :
    (analyze_only (Except.error "PII engine initialization failed.") "John Smith" none).1
        = Except.error "PII engine initialization failed." ∧
    (analyze_only (Except.ok failingAnalyzeEngines) "John Smith" none).1
        = Except.ok [] :=
  ⟨rfl, rfl⟩

/-- C3: empty or whitespace-only input short-circuits before any engine
access: `secure_text` returns `""` and `analyze_only` returns `[]` for every
value of the engine argument — including an unavailable engine — so the
detection engine is never invoked. -/
theorem empty_input_short_circuits :
    (∀ engines entities, secure_text engines "" entities = (Except.ok "", [])) ∧
    (∀ engines entities, secure_text engines "   " entities = (Except.ok "", [])) ∧
    (∀ engines entities, analyze_only engines "" entities = (Except.ok [], [])) ∧
    (∀ engines entities, analyze_only engines "   " entities = (Except.ok [], [])) :=
  ⟨fun _ _ => rfl, fun _ _ => rfl, fun _ _ => rfl, fun _ _ => rfl⟩

/-- C4: on non-empty input for which detection yields zero findings,
`secure_text` returns the input text unchanged as a successful (non-error)
result, and informs the caller via the log record
"No PII entities detected in text." (lines 114–116). -/
theorem secure_text_no_findings_passthrough (eng : Engines) (text : String)
    (entities : Option (List String))
    (hne : blankInput text = false)
    (hzero : eng.analyze text (targetEntities entities) = Except.ok []) :
    secure_text (Except.ok eng) text entities
      = (Except.ok text, [Log.info "No PII entities detected in text."]) := by
  simp [secure_text, hne, hzero]

/-- Witness for C4 at the spec's example "The sky is blue.". -/
theorem secure_text_no_findings_passthrough_witness :
    secure_text (Except.ok noFindingsEngines) "The sky is blue." none
      = (Except.ok "The sky is blue.", [Log.info "No PII entities detected in text."]) :=
  secure_text_no_findings_passthrough noFindingsEngines "The sky is blue." none
    (by decide) rfl

/-- C6: replacement-rule resolution over `REDACTION_OPERATORS` never fails:
every entity type resolves to some rule; an entity type with an exact-match
entry resolves to that entry; and `DATE_TIME`, which has no exact-match
operator, resolves to the DEFAULT placeholder `<REDACTED>`. -/
theorem redaction_rule_lookup_total :
    (∀ ety : String, (lookupRule REDACTION_OPERATORS ety).isSome = true) ∧
    (∀ p ∈ REDACTION_OPERATORS, lookupRule REDACTION_OPERATORS p.1 = some p.2) ∧
    lookupRule REDACTION_OPERATORS "DATE_TIME" = some ⟨"replace", "<REDACTED>"⟩ := by
  refine ⟨?_, by decide, by decide⟩
  intro ety
  simp only [lookupRule]
  split
  · rfl
  · rfl

/-- Witness for C6: an exact-match lookup resolved through the theorem. -/
theorem redaction_rule_lookup_total_witness :
    lookupRule REDACTION_OPERATORS "PERSON" = some ⟨"replace", "<PARTY>"⟩ :=
  redaction_rule_lookup_total.2.1 ("PERSON", ⟨"replace", "<PARTY>"⟩) (by decide)

/-- C7: `analyze_only` is a pure projection of the detection results: each
returned record is exactly the four-field projection `findingRecordOf`
(entity type, start, end, score — never the matched substring), and empty
input yields empty output. -/
theorem analyze_only_pure_projection :
    (∀ (eng : Engines) (text : String) (entities : Option (List String))
        (results : List RecognizerResult),
        blankInput text = false →
        eng.analyze text (targetEntities entities) = Except.ok results →
        analyze_only (Except.ok eng) text entities
          = (Except.ok (results.map findingRecordOf), [])) ∧
    (∀ engines entities, analyze_only engines "" entities = (Except.ok [], [])) := by
  constructor
  · intro eng text entities results hne ha
    simp [analyze_only, hne, ha]
  · exact fun _ _ => rfl

/-- Witness for C7 at a concrete engine reporting one PERSON finding. -/
theorem analyze_only_pure_projection_witness :
    analyze_only (Except.ok projEngines) "John" none
      = (Except.ok [⟨"PERSON", 0, 4, 1⟩], []) := by
  have h := analyze_only_pure_projection.1 projEngines "John" none [sampleResult]
    (by decide) rfl
  simpa [sampleResult, findingRecordOf] using h

/-- C8: once both engine globals are populated, every later `_get_engines`
call returns the same cached pair and leaves the state unchanged, whatever
the constructor outcomes would be (no reconstruction); and an initialization
failure is not cached: immediately after any failed call, a call whose
constructors succeed returns a working pair. -/
theorem get_engines_cached_and_retryable :
    (∀ (a b : Nat) (ocs : List InitOutcome),
        runCalls ⟨some a, some b⟩ ocs
          = (⟨some a, some b⟩, ocs.map fun _ => Except.ok (a, b))) ∧
    (∀ (st : EngineState) (oc : InitOutcome) (e : String),
        (get_engines st oc).2 = Except.error e →
        ∀ (a b : Nat), ∃ p : Nat × Nat,
          (get_engines (get_engines st oc).1 (InitOutcome.success a b)).2
            = Except.ok p) := by
  constructor
  · intro a b ocs
    induction ocs with
    | nil => rfl
    | cons oc rest ih => simp [runCalls, get_engines, ih]
  · intro st oc e herr a b
    rcases st with ⟨oa, ob⟩
    cases oa <;> cases ob <;> cases oc <;>
      simp [get_engines] at herr ⊢

/-- Witness for C8: a failed first call from the initial state followed by a
successful retry. -/
theorem get_engines_cached_and_retryable_witness :
    ∃ p : Nat × Nat,
      (get_engines (get_engines initialEngineState InitOutcome.analyzerFails).1
          (InitOutcome.success 1 2)).2 = Except.ok p :=
  get_engines_cached_and_retryable.2 initialEngineState InitOutcome.analyzerFails
    "PII engine initialization failed." rfl 1 2

/-- C10: passing an explicitly empty entities list is identical to omitting
the parameter — Python's `entities or LEGAL_PII_ENTITIES` treats the empty
(falsy) list as absent — so the full 11-type default legal allowlist is used
rather than detecting nothing. -/
theorem empty_entities_uses_default_allowlist :
    (∀ engines text, secure_text engines text (some []) = secure_text engines text none) ∧
    (∀ engines text, analyze_only engines text (some []) = analyze_only engines text none) ∧
    targetEntities (some []) = LEGAL_PII_ENTITIES ∧
    LEGAL_PII_ENTITIES.length = 11 :=
  ⟨fun _ _ => rfl, fun _ _ => rfl, rfl, rfl⟩

/-- C5 (spec-modelled Detector): provided every candidate span is valid for
the text, the detection result satisfies the spec's output guarantees:
every finding has `start < end ≤ len(text)` (and `0 ≤ start` holds in `Nat`),
the findings are sorted by ascending `start`, and no two findings'
`[start, end)` ranges intersect. -/
theorem detect_output_invariants (text : String) (allowed : List String)
    (candidates : List RecognizerResult)
    (hvalid : ∀ c ∈ candidates, c.start < c.end_ ∧ c.end_ ≤ text.length) :
    (∀ f ∈ detect allowed candidates, f.start < f.end_ ∧ f.end_ ≤ text.length) ∧
    (detect allowed candidates).Pairwise (fun a b => a.start ≤ b.start) ∧
    (detect allowed candidates).Pairwise (fun a b => overlaps a b = false) := by
  have key : detect allowed candidates
      = (resolveOverlaps
          ((candidates.filter (fun c => allowed.contains c.entity_type)).mergeSort priorityLe)
          []).mergeSort startLe := rfl
  refine ⟨?_, ?_, ?_⟩
  · intro f hf
    rw [key] at hf
    have hf1 := List.mem_mergeSort.1 hf
    rcases mem_resolveOverlaps hf1 with h1 | h2
    · have h3 := List.mem_mergeSort.1 h1
      exact hvalid f (List.mem_filter.1 h3).1
    · exact absurd h2 (List.not_mem_nil f)
  · have htrans : ∀ a b c : RecognizerResult,
        startLe a b = true → startLe b c = true → startLe a c = true := by
      intro a b c hab hbc
      simp only [startLe, decide_eq_true_eq] at hab hbc ⊢
      omega
    have htotal : ∀ a b : RecognizerResult, (startLe a b || startLe b a) = true := by
      intro a b
      simp only [startLe, Bool.or_eq_true, decide_eq_true_eq]
      omega
    have hs := List.sorted_mergeSort htrans htotal
      (resolveOverlaps
        ((candidates.filter (fun c => allowed.contains c.entity_type)).mergeSort priorityLe)
        [])
    rw [key]
    exact hs.imp (fun h => by simpa [startLe] using h)
  · have hres : (resolveOverlaps
        ((candidates.filter (fun c => allowed.contains c.entity_type)).mergeSort priorityLe)
        []).Pairwise (fun a b => overlaps a b = false) :=
      pairwise_resolveOverlaps _ [] List.Pairwise.nil
    have hperm := List.mergeSort_perm
      (resolveOverlaps
        ((candidates.filter (fun c => allowed.contains c.entity_type)).mergeSort priorityLe)
        []) startLe
    rw [key]
    exact (List.Perm.pairwise_iff
      (fun hxy => by rw [overlaps_comm]; exact hxy) hperm).2 hres

/-- Candidate findings used to instantiate the Detector invariants: the
PERSON and EMAIL_ADDRESS spans overlap and must be resolved. -/
def witnessCandidates : List RecognizerResult :=
  [⟨"PERSON", 0, 5, 1⟩, ⟨"EMAIL_ADDRESS", 3, 8, 0⟩, ⟨"LOCATION", 8, 10, 1⟩]

/-- Witness for C5 on a ten-character text with overlapping candidates. -/
theorem detect_output_invariants_witness :
    (∀ f ∈ detect LEGAL_PII_ENTITIES witnessCandidates,
        f.start < f.end_ ∧ f.end_ ≤ ("abcdefghij" : String).length) ∧
    (detect LEGAL_PII_ENTITIES witnessCandidates).Pairwise
      (fun a b => a.start ≤ b.start) ∧
    (detect LEGAL_PII_ENTITIES witnessCandidates).Pairwise
      (fun a b => overlaps a b = false) :=
  detect_output_invariants "abcdefghij" LEGAL_PII_ENTITIES witnessCandidates
    (by decide)

end JurisGuard
